import Mathlib

/-!
Verification development for the frpc-service supervisor.

This file gives a shallow embedding of the core of the program
(src/frpc.rs and src/service.rs) and proves properties of the
supervisor loop, the instance discovery, the worker handle and the
service lifecycle adapter.

Modelling conventions:
* Paths and file names are strings (the program only compares them and
  passes them around); the file system is an oracle `String → Bool`
  (`pathExists`) plus a directory listing `List String` for discovery.
* The OS child process is modelled by a Boolean `alive` on the handle.
  `Child::try_wait` keeps returning the cached exit status once the
  child has been reaped, which `alive = false` captures: a handle whose
  process has exited reports "exited" on every later poll.
* Nondeterministic outside events (a child exiting, `try_wait` failing,
  `spawn` failing, the shutdown channel holding a message) are inputs,
  packaged per polling tick in `TickEnv`.
* `HashMap<String, u32>` with `entry(id).or_insert(0)` is modelled as a
  total map `String → Nat` defaulting to `0`.
-/

set_option linter.unusedVariables false

namespace FrpcSvc

/-! ## Worker handle: `FrpcProcess` (src/frpc.rs) -/

/-- The command line a child is spawned with:
`Command::new(&exe_path).arg("-c").arg(&config_path)` (src/frpc.rs 36-38). -/
structure LaunchedCmd where
  program : String
  args : List String
  deriving DecidableEq, Repr

/-- Model of `FrpcProcess` (src/frpc.rs 9-14): the handle owns one child
process (`alive` tells whether that OS process is still running) and
retains `identifier`, `exe_path` and `config_path` for restarting. -/
structure FrpcProcess where
  identifier : String
  exe_path : String
  config_path : String
  alive : Bool
  deriving DecidableEq, Repr

/-- Outside conditions for one `FrpcProcess::start` call: which paths
exist on disk, and whether `Command::spawn` succeeds. -/
structure StartEnv where
  pathExists : String → Bool
  spawnOk : Bool

/-- Failure cases of `FrpcProcess::start` (src/frpc.rs 24-42): missing
executable, missing configuration file, or a spawn failure. -/
inductive StartError where
  | missingExecutable
  | missingConfig
  | launchFailure
  deriving DecidableEq, Repr

/-- Model of `FrpcProcess::start` (src/frpc.rs 18-80): checks `exe_path.exists()`,
then `config_path.exists()`, then spawns the child with the two
arguments `-c` and `config_path`.  On success the handle retains the
identifier and both paths; the returned `LaunchedCmd` records the exact
command line the child was spawned with.  (The stdout/stderr capture
threads only log and are not part of the state.) -/
def FrpcProcess.start (e : StartEnv) (identifier exe_path config_path : String) :
    Except StartError (FrpcProcess × LaunchedCmd) :=
  if ¬ e.pathExists exe_path then .error .missingExecutable
  else if ¬ e.pathExists config_path then .error .missingConfig
  else if ¬ e.spawnOk then .error .launchFailure
  else .ok ({ identifier := identifier, exe_path := exe_path,
              config_path := config_path, alive := true },
            { program := exe_path, args := ["-c", config_path] })

/-- Model of `FrpcProcess::check_status` (src/frpc.rs 92-104), i.e.
`self.child.try_wait()`: an OS error is propagated as `Except.error`;
otherwise the call reports `some ()` (an exit status) exactly when the
child has exited — either earlier (`alive = false`, the cached status)
or during this tick (`exitsNow`). -/
def FrpcProcess.check_status (p : FrpcProcess) (exitsNow pollErr : Bool) :
    Except Unit (Option Unit × FrpcProcess) :=
  if pollErr then .error ()
  else if !p.alive || exitsNow then .ok (some (), { p with alive := false })
  else .ok (none, p)

/-- Model of `FrpcProcess::stop` (src/frpc.rs 83-89): `kill` + `wait`; on success
the child is no longer running.  `stopErr` says whether the OS call
fails. -/
def FrpcProcess.stop (p : FrpcProcess) (stopErr : Bool) : Except Unit FrpcProcess :=
  if stopErr then .error () else .ok { p with alive := false }

/-! ## Instance discovery (src/service.rs 36-74)

`discover_frpc_instances` is modelled over the list of (regular) file
names found in the executable's directory, in directory-iteration
order; emitted instances are `(identifier, exe path, config path)`
triples, as in the source. -/

/-- The named-instance test and name extraction (src/service.rs 54-55):
`file_name.starts_with("frpc@") && file_name.ends_with(".exe")`, then
the slice `file_name["frpc@".len() .. file_name.len() - ".exe".len()]`,
kept only when nonempty (src/service.rs 56).  Rust slices bytes; since
the fixed markers are ASCII this is the same as dropping 5 characters
at the front and 4 at the back. -/
def extractInstanceName (file_name : String) : Option String :=
  if "frpc@".data.isPrefixOf file_name.data && ".exe".data.isSuffixOf file_name.data then
    if ((file_name.data.drop 5).take (file_name.data.length - 9)).isEmpty then none
    else some (String.mk ((file_name.data.drop 5).take (file_name.data.length - 9)))
  else none

/-- The body of the `read_dir` loop (src/service.rs 49-67) for one file:
if the file matches `frpc@<name>.exe` and `<name>.toml` is present in
the directory, emit `(<name>, file, <name>.toml)`; a matching file with
no configuration only logs a warning and emits nothing. -/
def named_instance (files : List String) (file_name : String) :
    Option (String × String × String) :=
  match extractInstanceName file_name with
  | some name_part =>
      if files.contains (name_part ++ ".toml") then
        some (name_part, file_name, name_part ++ ".toml")
      else none
  | none => none

/-- Model of `discover_frpc_instances` (src/service.rs 36-74): the `default`
instance when both `frpc.exe` and `frpc.toml` exist, followed by the
named instances in directory order. -/
def discover_frpc_instances (files : List String) : List (String × String × String) :=
  (if files.contains "frpc.exe" && files.contains "frpc.toml" then
      [("default", "frpc.exe", "frpc.toml")]
    else []) ++
  files.filterMap (named_instance files)

/-! ## Supervisor loop (src/service.rs 76-189) -/

/-- Constant `MAX_RESTART_ATTEMPTS` (src/service.rs 20). -/
def MAX_RESTART_ATTEMPTS : Nat := 3

/-- Outside conditions for one iteration of the monitor loop:
whether the shutdown channel yields a message (or is disconnected),
which children exit during this tick, which `try_wait` calls fail, the
file system, and which restart spawns succeed (both indexed by the
position of the worker in `frpc_processes`). -/
structure TickEnv where
  shutdownSignal : Bool
  exitsNow : Nat → Bool
  pollErr : Nat → Bool
  pathExists : String → Bool
  spawnOk : Nat → Bool

/-- Mutable state of `run_service`'s monitor loop: the
`frpc_processes` vector and the `restart_attempts` map
(src/service.rs 99, 116). -/
structure SvcState where
  frpc_processes : List FrpcProcess
  restart_attempts : String → Nat

/-- One index `i` of the `for i in 0..frpc_processes.len()` loop
(src/service.rs 129-172): poll the worker; a poll error propagates
(the source writes `process.check_status()?`); on a detected exit,
bump `restart_attempts[identifier]` by one, abandon the worker when
the new count exceeds `MAX_RESTART_ATTEMPTS` (`continue` — the worker
stays in the vector), and otherwise attempt a restart with the
retained identifier and paths, replacing the slot on success and
leaving the exited handle in place on failure. -/
def procStep (env : TickEnv) (st : SvcState) (i : Nat) : Except Unit SvcState :=
  match st.frpc_processes[i]? with
  | none => .ok st
  | some process =>
    match process.check_status (env.exitsNow i) (env.pollErr i) with
    | .error e => .error e
    | .ok (none, process') =>
        .ok { st with frpc_processes := st.frpc_processes.set i process' }
    | .ok (some _, process') =>
        let identifier := process.identifier
        let attempts := st.restart_attempts identifier + 1
        let restart_attempts' : String → Nat :=
          fun s => if s = identifier then attempts else st.restart_attempts s
        if attempts > MAX_RESTART_ATTEMPTS then
          .ok { frpc_processes := st.frpc_processes.set i process',
                restart_attempts := restart_attempts' }
        else
          match FrpcProcess.start { pathExists := env.pathExists, spawnOk := env.spawnOk i }
              process.identifier process.exe_path process.config_path with
          | .ok (new_process, _) =>
              .ok { frpc_processes := st.frpc_processes.set i new_process,
                    restart_attempts := restart_attempts' }
          | .error _ =>
              .ok { frpc_processes := st.frpc_processes.set i process',
                    restart_attempts := restart_attempts' }

/-- The whole `for` loop: run `procStep` on indices `i, i+1, ...` with
`n` indices left to visit. -/
def checkLoop (env : TickEnv) : SvcState → Nat → Nat → Except Unit SvcState
  | st, _, 0 => .ok st
  | st, i, n + 1 =>
    match procStep env st i with
    | .error e => .error e
    | .ok st' => checkLoop env st' (i + 1) n

/-- Result of one iteration of the monitor loop. -/
inductive TickResult where
  | pollFailed
  | shuttingDown (st : SvcState)
  | continues (st : SvcState)

/-- One iteration of the monitor loop (src/service.rs 118-176): the
shutdown channel is checked first (src/service.rs 120-126) and a
pending signal breaks out of the loop before any worker is polled;
only otherwise are the children checked. -/
def tick (env : TickEnv) (st : SvcState) : TickResult :=
  if env.shutdownSignal then .shuttingDown st
  else
    match checkLoop env st 0 st.frpc_processes.length with
    | .error _ => .pollFailed
    | .ok st' => .continues st'

/-- Result of running the monitor loop for finitely many ticks.
`stillRunning` means the supplied tick environments ran out while the
loop was still going (the real loop runs forever until a shutdown
signal or a poll error). -/
inductive LoopResult where
  | stillRunning (st : SvcState)
  | stopping (st : SvcState)
  | failed

/-- The monitor loop (src/service.rs 118-176) driven by one `TickEnv`
per iteration. -/
def runLoop : List TickEnv → SvcState → LoopResult
  | [], st => .stillRunning st
  | env :: envs, st =>
    match tick env st with
    | .pollFailed => .failed
    | .shuttingDown st' => .stopping st'
    | .continues st' => runLoop envs st'

/-! ## Service lifecycle adapter (src/service.rs 76-113, 178-210) -/

/-- The service states this program reports (`ServiceState` values used
in src/service.rs). -/
inductive ServiceState where
  | startPending
  | running
  | stopped
  deriving DecidableEq, Repr

/-- One status report to the service control manager. -/
structure ReportedStatus where
  current_state : ServiceState
  acceptsStopShutdown : Bool
  exit_code : Nat
  deriving DecidableEq, Repr

/-- Model of `set_service_status` (src/service.rs 191-210): STOP and SHUTDOWN
are accepted only in the Running state, and the exit code is always
`ServiceExitCode::Win32(0)`. -/
def set_service_status (current_state : ServiceState) : ReportedStatus :=
  { current_state := current_state,
    acceptsStopShutdown := current_state == ServiceState.running,
    exit_code := 0 }

/-- Errors with which `run_service` can return. -/
inductive ServiceError where
  | registrationFailure
  | discoveryFailure
  | noWorkersAvailable
  | pollFailure
  deriving DecidableEq, Repr

/-- Outcome of `run_service`: `ok` for `Ok(())`, `error` for `Err(..)`,
and `stillLooping` when the supplied tick environments ran out while
the monitor loop was still running. -/
inductive RunOutcome where
  | ok
  | error (e : ServiceError)
  | stillLooping
  deriving DecidableEq, Repr

/-- Outside conditions for one `run_service` call. -/
structure RunEnv where
  registerOk : Bool
  discoveredFiles : Except Unit (List String)
  startEnvs : Nat → StartEnv
  loopEnvs : List TickEnv
  stopErr : Nat → Bool

/-- The initial launches (src/service.rs 100-105): start every
discovered instance in order; failures are logged and the instance is
simply not pushed onto `frpc_processes`. -/
def startAll (startEnvs : Nat → StartEnv) :
    List (String × String × String) → Nat → List FrpcProcess
  | [], _ => []
  | (id, exe, conf) :: rest, i =>
    match FrpcProcess.start (startEnvs i) id exe conf with
    | .ok (process, _) => process :: startAll startEnvs rest (i + 1)
    | .error _ => startAll startEnvs rest (i + 1)

/-- The shutdown sequence (src/service.rs 178-183): stop every process
in the vector; a stop failure is only logged and the sweep continues
with the next process. -/
def stopAll (stopErr : Nat → Bool) : List FrpcProcess → Nat → List FrpcProcess
  | [], _ => []
  | p :: rest, i =>
    match p.stop (stopErr i) with
    | .ok p' => p' :: stopAll stopErr rest (i + 1)
    | .error _ => p :: stopAll stopErr rest (i + 1)

/-- Model of `run_service` (src/service.rs 76-189).  Returns the list of status
reports made to the service control manager, in order, and the
outcome.  Control flow of the source: register the control handler
(`?` on failure), report StartPending, discover instances (`?` on a
directory-read failure), start them all, fail with an error after
reporting Stopped when none started, otherwise report Running, run the
monitor loop (a poll error propagates out of it with no further status
report), and on a shutdown signal stop all processes and report
Stopped. -/
def run_service (env : RunEnv) : List ReportedStatus × RunOutcome :=
  if ¬ env.registerOk then ([], .error .registrationFailure)
  else
    match env.discoveredFiles with
    | .error _ => ([set_service_status .startPending], .error .discoveryFailure)
    | .ok files =>
      if (startAll env.startEnvs (discover_frpc_instances files) 0).isEmpty then
        ([set_service_status .startPending, set_service_status .stopped],
          .error .noWorkersAvailable)
      else
        match runLoop env.loopEnvs
            { frpc_processes := startAll env.startEnvs (discover_frpc_instances files) 0,
              restart_attempts := fun _ => 0 } with
        | .failed =>
            ([set_service_status .startPending, set_service_status .running],
              .error .pollFailure)
        | .stillRunning _ =>
            ([set_service_status .startPending, set_service_status .running],
              .stillLooping)
        | .stopping st =>
            let _stopped := stopAll env.stopErr st.frpc_processes 0
            ([set_service_status .startPending, set_service_status .running,
              set_service_status .stopped], .ok)

/-! ## Concrete environments and states used by witnesses, scenarios and
counterexamples -/

/-- A benign tick environment in which every live child exits during
the tick, polling never fails, every path exists and every spawn
succeeds — the claimed restart scenario. -/
def alwaysExitEnv : TickEnv :=
  { shutdownSignal := false, exitsNow := fun _ => true, pollErr := fun _ => false,
    pathExists := fun _ => true, spawnOk := fun _ => true }

/-- Environment `alwaysExitEnv` with the shutdown signal set. -/
def shutdownEnv : TickEnv :=
  { alwaysExitEnv with shutdownSignal := true }

/-- A tick environment in which `try_wait` fails for every worker. -/
def pollErrTickEnv : TickEnv :=
  { alwaysExitEnv with pollErr := fun _ => true }

/-- A file system oracle on which `FrpcProcess.start` always succeeds. -/
def allOkStartEnv : StartEnv :=
  { pathExists := fun _ => true, spawnOk := true }

/-- Loop state holding one worker with a given liveness and restart
count (every other identifier unused, count 0). -/
def singleState (id exe conf : String) (alive : Bool) (c : Nat) : SvcState :=
  { frpc_processes := [{ identifier := id, exe_path := exe, config_path := conf, alive := alive }],
    restart_attempts := fun s => if s = id then c else 0 }

/-- The loop state right after one worker was started: one live handle,
all restart counts 0 (src/service.rs 99-116). -/
def initOne (id exe conf : String) : SvcState :=
  { frpc_processes := [{ identifier := id, exe_path := exe, config_path := conf, alive := true }],
    restart_attempts := fun _ => 0 }

/-- State projection of a loop result (`failed` carries no state; an
empty state stands in). -/
def stateOf (r : LoopResult) : SvcState :=
  match r with
  | .stillRunning st => st
  | .stopping st => st
  | .failed => { frpc_processes := [], restart_attempts := fun _ => 0 }

/-- A run in which discovery finds an empty directory: no specs, hence
no worker starts. -/
def cenvNoWorkers : RunEnv :=
  { registerOk := true, discoveredFiles := .ok [], startEnvs := fun _ => allOkStartEnv,
    loopEnvs := [], stopErr := fun _ => false }

/-- A run with one healthy worker whose very first poll fails. -/
def cenvPollErr : RunEnv :=
  { registerOk := true, discoveredFiles := .ok ["frpc.exe", "frpc.toml"],
    startEnvs := fun _ => allOkStartEnv, loopEnvs := [pollErrTickEnv],
    stopErr := fun _ => false }

/-- A run in which reading the executable's directory fails, so
discovery itself returns an error. -/
def cenvDiscoveryErr : RunEnv :=
  { registerOk := true, discoveredFiles := .error (),
    startEnvs := fun _ => allOkStartEnv, loopEnvs := [],
    stopErr := fun _ => false }

/-- Two workers; worker `a` (index 0) has exited and has already used 3
restarts, worker `b` (index 1) is live and untouched. -/
def twoProcState : SvcState :=
  { frpc_processes :=
      [{ identifier := "a", exe_path := "ea", config_path := "ca", alive := false },
       { identifier := "b", exe_path := "eb", config_path := "cb", alive := true }],
    restart_attempts := fun s => if s = "a" then 3 else 0 }

/-- One worker whose restart count has already exceeded the maximum
(it was abandoned on an earlier tick) and whose process is down. -/
def exhaustedState : SvcState :=
  { frpc_processes :=
      [{ identifier := "a", exe_path := "ea", config_path := "ca", alive := false }],
    restart_attempts := fun s => if s = "a" then 4 else 0 }

/-- The directory of the discovery scenario: a default pair, a complete
named pair `alpha`, and a stray `frpc@beta.exe` without `beta.toml`. -/
def scenarioFiles : List String :=
  ["frpc.exe", "frpc.toml", "frpc@alpha.exe", "alpha.toml", "frpc@beta.exe"]

/-- A directory on which the default worker and the named worker
`default` collide. -/
def collideFiles : List String :=
  ["frpc.exe", "frpc.toml", "frpc@default.exe", "default.toml"]

/-! ## Supporting lemmas about the loop body -/

/-- Computation of `check_status` on a worker whose exit is detected (either its
process was already down, or it exits during this tick), with a
working `try_wait`. -/
theorem check_status_detected (process : FrpcProcess) (exitsNow : Bool)
    (hdet : process.alive = false ∨ exitsNow = true) :
    process.check_status exitsNow false = .ok (some (), { process with alive := false }) := by
  unfold FrpcProcess.check_status
  have hdet' : (!process.alive || exitsNow) = true := by
    rcases hdet with h | h
    · rw [h]; rfl
    · rw [h]; simp
  simp [hdet']

/-- What one loop index does to the state when the worker's exit is
detected: the counter of its identifier is bumped by one, and the slot
is either left holding the exited handle (count over the budget, or
restart failure) or replaced by the freshly started handle. -/
theorem procStep_detected (env : TickEnv) (st : SvcState) (i : Nat) (process : FrpcProcess)
    (hp : st.frpc_processes[i]? = some process)
    (hdet : process.alive = false ∨ env.exitsNow i = true)
    (hpe : env.pollErr i = false) :
    procStep env st i =
      (if st.restart_attempts process.identifier + 1 > MAX_RESTART_ATTEMPTS then
        Except.ok
          { frpc_processes := st.frpc_processes.set i { process with alive := false },
            restart_attempts := fun s =>
              if s = process.identifier then st.restart_attempts process.identifier + 1
              else st.restart_attempts s }
      else
        match FrpcProcess.start { pathExists := env.pathExists, spawnOk := env.spawnOk i }
            process.identifier process.exe_path process.config_path with
        | .ok (new_process, _) =>
            Except.ok
              { frpc_processes := st.frpc_processes.set i new_process,
                restart_attempts := fun s =>
                  if s = process.identifier then st.restart_attempts process.identifier + 1
                  else st.restart_attempts s }
        | .error _ =>
            Except.ok
              { frpc_processes := st.frpc_processes.set i { process with alive := false },
                restart_attempts := fun s =>
                  if s = process.identifier then st.restart_attempts process.identifier + 1
                  else st.restart_attempts s }) := by
  have hcs := check_status_detected process (env.exitsNow i) hdet
  unfold procStep
  rw [hp]
  simp only [hpe, hcs]

/-- A detected exit with restart budget left, in an environment where
the retained paths exist and the spawn succeeds: the counter is bumped
and the slot is replaced by a fresh live handle with the same
identifier and paths. -/
theorem procStep_relaunch (env : TickEnv) (st : SvcState) (i : Nat) (process : FrpcProcess)
    (hp : st.frpc_processes[i]? = some process)
    (hdet : process.alive = false ∨ env.exitsNow i = true)
    (hpe : env.pollErr i = false)
    (hle : st.restart_attempts process.identifier + 1 ≤ MAX_RESTART_ATTEMPTS)
    (hex : env.pathExists process.exe_path = true)
    (hcf : env.pathExists process.config_path = true)
    (hsp : env.spawnOk i = true) :
    procStep env st i =
      Except.ok
        { frpc_processes := st.frpc_processes.set i
            { identifier := process.identifier, exe_path := process.exe_path,
              config_path := process.config_path, alive := true },
          restart_attempts := fun s =>
            if s = process.identifier then st.restart_attempts process.identifier + 1
            else st.restart_attempts s } := by
  rw [procStep_detected env st i process hp hdet hpe]
  rw [if_neg (by omega)]
  unfold FrpcProcess.start
  simp [hex, hcf, hsp]

/-- A detected exit with the bumped counter over the budget: the
counter is bumped, no restart is attempted, and the slot keeps the
exited handle. -/
theorem procStep_abandon (env : TickEnv) (st : SvcState) (i : Nat) (process : FrpcProcess)
    (hp : st.frpc_processes[i]? = some process)
    (hdet : process.alive = false ∨ env.exitsNow i = true)
    (hpe : env.pollErr i = false)
    (hgt : MAX_RESTART_ATTEMPTS < st.restart_attempts process.identifier + 1) :
    procStep env st i =
      Except.ok
        { frpc_processes := st.frpc_processes.set i { process with alive := false },
          restart_attempts := fun s =>
            if s = process.identifier then st.restart_attempts process.identifier + 1
            else st.restart_attempts s } := by
  rw [procStep_detected env st i process hp hdet hpe]
  rw [if_pos (by omega)]

/-- A tick of a loop supervising exactly one worker reduces to the one
`procStep` at index 0. -/
theorem tick_single (env : TickEnv) (st : SvcState)
    (henv : env.shutdownSignal = false)
    (hlen : st.frpc_processes.length = 1) (st' : SvcState)
    (h : procStep env st 0 = .ok st') :
    tick env st = .continues st' := by
  have h1 : checkLoop env st 0 st.frpc_processes.length = .ok st' := by
    rw [hlen]
    show (match procStep env st 0 with
          | .error e => Except.error e
          | .ok s => checkLoop env s 1 0) = Except.ok st'
    rw [h]
    rfl
  unfold tick
  simp [henv, h1]

/-- A tick of `alwaysExitEnv` on a single live worker with restart
budget left: the worker is relaunched and its count goes up by one. -/
theorem tick_single_relaunch (id exe conf : String) (c : Nat)
    (hc : c + 1 ≤ MAX_RESTART_ATTEMPTS) :
    tick alwaysExitEnv (singleState id exe conf true c) =
      .continues (singleState id exe conf true (c + 1)) := by
  apply tick_single alwaysExitEnv (singleState id exe conf true c) rfl rfl
  rw [procStep_relaunch alwaysExitEnv (singleState id exe conf true c) 0
      { identifier := id, exe_path := exe, config_path := conf, alive := true }
      rfl (Or.inr rfl) rfl (by simpa [singleState] using hc) rfl rfl rfl]
  refine congrArg Except.ok ?_
  unfold singleState
  congr 1
  funext s
  by_cases h : s = id <;> simp [h]

/-- A tick of `alwaysExitEnv` on a single worker whose bumped count
exceeds the budget: the worker is abandoned (not restarted, handle
left dead in place) and its count still goes up by one. -/
theorem tick_single_abandon (id exe conf : String) (alive : Bool) (c : Nat)
    (hc : MAX_RESTART_ATTEMPTS < c + 1) :
    tick alwaysExitEnv (singleState id exe conf alive c) =
      .continues (singleState id exe conf false (c + 1)) := by
  apply tick_single alwaysExitEnv (singleState id exe conf alive c) rfl rfl
  rw [procStep_abandon alwaysExitEnv (singleState id exe conf alive c) 0
      { identifier := id, exe_path := exe, config_path := conf, alive := alive }
      rfl (Or.inr rfl) rfl (by simpa [singleState] using hc)]
  refine congrArg Except.ok ?_
  unfold singleState
  congr 1
  funext s
  by_cases h : s = id <;> simp [h]

/-- State `initOne` is `singleState` with count 0. -/
theorem initOne_eq (id exe conf : String) :
    initOne id exe conf = singleState id exe conf true 0 := by
  unfold initOne singleState
  congr 1
  funext s
  by_cases h : s = id <;> simp [h]

/-! ## Claim theorems -/

/-- C1: with the restart budget fixed at `MAX_RESTART_ATTEMPTS = 3`, a
supervised worker whose process exits on every tick (restarts
succeeding) is relaunched after its 1st, 2nd and 3rd detected exits,
with the counter incremented by exactly one per detected exit (values
1, 2, 3 after those ticks, the live handle back in the slot), and is
abandoned exactly on the 4th detected exit — the tick on which the
incremented counter (4) first exceeds the maximum (3): the handle is
left dead, no relaunch. -/
theorem restart_budget_boundary (id exe conf : String) :
    runLoop (List.replicate 1 alwaysExitEnv) (initOne id exe conf) =
        .stillRunning (singleState id exe conf true 1) ∧
    runLoop (List.replicate 2 alwaysExitEnv) (initOne id exe conf) =
        .stillRunning (singleState id exe conf true 2) ∧
    runLoop (List.replicate 3 alwaysExitEnv) (initOne id exe conf) =
        .stillRunning (singleState id exe conf true 3) ∧
    runLoop (List.replicate 4 alwaysExitEnv) (initOne id exe conf) =
        .stillRunning (singleState id exe conf false 4) := by
  have t1 := tick_single_relaunch id exe conf 0 (by decide)
  have t2 := tick_single_relaunch id exe conf 1 (by decide)
  have t3 := tick_single_relaunch id exe conf 2 (by decide)
  have t4 := tick_single_abandon id exe conf true 3 (by decide)
  refine ⟨?_, ?_, ?_, ?_⟩ <;>
    simp [List.replicate, runLoop, initOne_eq, t1, t2, t3, t4]

/-- C2 counterexample: with `MAX_RESTART_ATTEMPTS = 3`, after the 4th
detected exit the count (4) has exceeded the maximum and the worker is
abandoned — yet verbatim the claim fails: on the 5th tick the worker is
still in the supervised vector (it was polled again: its cached exit is
re-detected) and its counter is incremented again, to 5, so the counter
is not frozen and the worker was not removed. -/
theorem abandoned_worker_not_frozen_cex :
    MAX_RESTART_ATTEMPTS <
      (stateOf (runLoop (List.replicate 4 alwaysExitEnv)
        (initOne "w" "frpc.exe" "frpc.toml"))).restart_attempts "w" ∧
    (stateOf (runLoop (List.replicate 4 alwaysExitEnv)
        (initOne "w" "frpc.exe" "frpc.toml"))).restart_attempts "w" = 4 ∧
    (stateOf (runLoop (List.replicate 5 alwaysExitEnv)
        (initOne "w" "frpc.exe" "frpc.toml"))).restart_attempts "w" = 5 ∧
    (stateOf (runLoop (List.replicate 5 alwaysExitEnv)
        (initOne "w" "frpc.exe" "frpc.toml"))).frpc_processes =
      [{ identifier := "w", exe_path := "frpc.exe", config_path := "frpc.toml",
         alive := false }] := by
  decide

/-- C2 (amended): once a worker's restart count exceeds the maximum,
no restart is ever attempted for it again — each later tick re-detects
the cached exit of its dead handle and the slot keeps that dead handle
— but the worker is not removed from `frpc_processes` (the slot is
still there and polled) and its counter is not frozen: every
re-detection bumps it by one more. -/
theorem exhausted_worker_polled_not_restarted (env : TickEnv) (st : SvcState) (i : Nat)
    (process : FrpcProcess)
    (hp : st.frpc_processes[i]? = some process)
    (halive : process.alive = false)
    (hpe : env.pollErr i = false)
    (hex : MAX_RESTART_ATTEMPTS < st.restart_attempts process.identifier) :
    procStep env st i =
      Except.ok
        { frpc_processes := st.frpc_processes.set i { process with alive := false },
          restart_attempts := fun s =>
            if s = process.identifier then st.restart_attempts process.identifier + 1
            else st.restart_attempts s } :=
  procStep_abandon env st i process hp (Or.inl halive) hpe (by omega)

/-- Witness for the C2 amended theorem at a concrete exhausted
worker. -/
theorem exhausted_worker_polled_not_restarted_witness :
    procStep alwaysExitEnv exhaustedState 0 =
      Except.ok
        { frpc_processes := exhaustedState.frpc_processes.set 0
            { identifier := "a", exe_path := "ea", config_path := "ca", alive := false },
          restart_attempts := fun s =>
            if s = "a" then exhaustedState.restart_attempts "a" + 1
            else exhaustedState.restart_attempts s } :=
  exhausted_worker_polled_not_restarted alwaysExitEnv exhaustedState 0
    { identifier := "a", exe_path := "ea", config_path := "ca", alive := false }
    rfl rfl rfl (by decide)

/-- C9: the tick step that abandons worker `i` (its bumped count over
the budget) writes only that worker's slot (keeping its dead handle)
and only that worker's counter: every other index of the supervised
vector and every other identifier's count are unchanged. -/
theorem abandon_frame_effect (env : TickEnv) (st : SvcState) (i : Nat)
    (process : FrpcProcess)
    (hp : st.frpc_processes[i]? = some process)
    (hdet : process.alive = false ∨ env.exitsNow i = true)
    (hpe : env.pollErr i = false)
    (hgt : MAX_RESTART_ATTEMPTS < st.restart_attempts process.identifier + 1) :
    procStep env st i =
      Except.ok
        { frpc_processes := st.frpc_processes.set i { process with alive := false },
          restart_attempts := fun s =>
            if s = process.identifier then st.restart_attempts process.identifier + 1
            else st.restart_attempts s } ∧
    (∀ j, j ≠ i →
      (st.frpc_processes.set i { process with alive := false })[j]? =
        st.frpc_processes[j]?) ∧
    ∀ id, id ≠ process.identifier →
      (if id = process.identifier then st.restart_attempts process.identifier + 1
       else st.restart_attempts id) = st.restart_attempts id := by
  refine ⟨procStep_abandon env st i process hp hdet hpe hgt, ?_, ?_⟩
  · intro j hj
    exact List.getElem?_set_ne (Ne.symm hj)
  · intro id hid
    rw [if_neg hid]

/-- Witness for C9: abandoning worker `a` at index 0 leaves worker `b`
at index 1 and the counter of `b` unchanged. -/
theorem abandon_frame_effect_witness :
    (procStep alwaysExitEnv twoProcState 0 =
      Except.ok
        { frpc_processes := twoProcState.frpc_processes.set 0
            { identifier := "a", exe_path := "ea", config_path := "ca", alive := false },
          restart_attempts := fun s =>
            if s = "a" then twoProcState.restart_attempts "a" + 1
            else twoProcState.restart_attempts s }) ∧
    (twoProcState.frpc_processes.set 0
        { identifier := "a", exe_path := "ea", config_path := "ca", alive := false })[1]? =
      twoProcState.frpc_processes[1]? ∧
    (if "b" = "a" then twoProcState.restart_attempts "a" + 1
     else twoProcState.restart_attempts "b") = twoProcState.restart_attempts "b" := by
  obtain ⟨h1, h2, h3⟩ := abandon_frame_effect alwaysExitEnv twoProcState 0
    { identifier := "a", exe_path := "ea", config_path := "ca", alive := false }
    rfl (Or.inl rfl) rfl (by decide)
  exact ⟨h1, h2 1 (by decide), h3 "b" (by decide)⟩

/-- C8: the shutdown check comes first in every iteration: when the
signal is set, the tick hands the state straight to shutdown handling
— no worker is polled, no counter changes, no restart happens — and at
the loop level the very next tick leaves the monitor loop for the
stopping sequence. -/
theorem shutdown_checked_before_polling (env : TickEnv) (rest : List TickEnv)
    (st : SvcState) (h : env.shutdownSignal = true) :
    tick env st = .shuttingDown st ∧ runLoop (env :: rest) st = .stopping st := by
  have h1 : tick env st = .shuttingDown st := by
    unfold tick
    rw [h]
    rfl
  refine ⟨h1, ?_⟩
  unfold runLoop
  rw [h1]

/-- Witness for C8 on a concrete environment and state. -/
theorem shutdown_checked_before_polling_witness :
    tick shutdownEnv twoProcState = .shuttingDown twoProcState ∧
    runLoop [shutdownEnv] twoProcState = .stopping twoProcState :=
  shutdown_checked_before_polling shutdownEnv [] twoProcState rfl

/-- Calling `check_status` with a working `try_wait` never returns an error. -/
theorem check_status_ok (p : FrpcProcess) (ex : Bool) :
    p.check_status ex false = .ok (some (), { p with alive := false }) ∨
    p.check_status ex false = .ok (none, p) := by
  unfold FrpcProcess.check_status
  rcases Bool.eq_false_or_eq_true (!p.alive || ex) with h | h <;> simp [h]

/-- One loop index never yields an error when `try_wait` works for it:
whatever happens (no exit, exit and restart, restart failure, or
abandonment), the step produces a state. -/
theorem procStep_isOk (env : TickEnv) (st : SvcState) (i : Nat)
    (hpe : env.pollErr i = false) :
    ∃ st', procStep env st i = .ok st' := by
  unfold procStep
  cases hp : st.frpc_processes[i]? with
  | none => exact ⟨st, rfl⟩
  | some process =>
    rcases check_status_ok process (env.exitsNow i) with h | h
    · simp only [hpe, h]
      split
      · exact ⟨_, rfl⟩
      · split <;> exact ⟨_, rfl⟩
    · simp only [hpe, h]
      exact ⟨_, rfl⟩

/-- The whole polling sweep never yields an error when `try_wait`
works for every worker. -/
theorem checkLoop_isOk (env : TickEnv) (hpe : ∀ j, env.pollErr j = false) :
    ∀ (n : Nat) (st : SvcState) (i : Nat), ∃ st', checkLoop env st i n = .ok st' := by
  intro n
  induction n with
  | zero => exact fun st i => ⟨st, rfl⟩
  | succ n ih =>
    intro st i
    obtain ⟨st1, h1⟩ := procStep_isOk env st i (hpe i)
    obtain ⟨st2, h2⟩ := ih st1 (i + 1)
    refine ⟨st2, ?_⟩
    show (match procStep env st i with
          | .error e => Except.error e
          | .ok s => checkLoop env s (i + 1) n) = Except.ok st2
    rw [h1]
    exact h2

/-- C5 (amended): in the steady state, restart failures are contained
— a tick with working polling never fails, whatever the spawn and
file-system oracles do — and stop failures are contained — the
shutdown sweep still visits and keeps every worker.  (Poll failures
are NOT contained; see the counterexample.)  Beyond the
zero-workers-available condition and registration failures, a failure
of discovery itself (the `?` on `discover_frpc_instances()` at
src/service.rs 98, e.g. a directory-read error) also terminates
`run_service` with an error, with no Stopped report. -/
theorem steady_state_error_containment (env : TickEnv) (st : SvcState)
    (hpe : ∀ j, env.pollErr j = false)
    (stopErr : Nat → Bool) (procs : List FrpcProcess) (i : Nat)
    (renv : RunEnv) (hreg : renv.registerOk = true)
    (hdf : renv.discoveredFiles = .error ()) :
    (tick env st ≠ .pollFailed ∧ (stopAll stopErr procs i).length = procs.length) ∧
    run_service renv =
      ([set_service_status .startPending], RunOutcome.error .discoveryFailure) := by
  refine ⟨⟨?_, ?_⟩, ?_⟩
  · unfold tick
    cases h : env.shutdownSignal with
    | true => simp
    | false =>
      obtain ⟨st', hcl⟩ := checkLoop_isOk env hpe st.frpc_processes.length st 0
      rw [hcl]
      simp
  · induction procs generalizing i with
    | nil => rfl
    | cons p rest ih =>
      unfold stopAll
      cases hstop : p.stop (stopErr i) <;> simp [ih]
  · unfold run_service
    rw [hreg, hdf]
    simp

/-- Witness for the C5 amended theorem: a concrete tick that cannot
fail even though every spawn fails, a shutdown sweep in which every
stop fails yet both workers are swept, and a run whose directory read
fails and errors out with no Stopped report. -/
theorem steady_state_error_containment_witness :
    (tick alwaysExitEnv twoProcState ≠ .pollFailed ∧
      (stopAll (fun _ => true) twoProcState.frpc_processes 0).length =
        twoProcState.frpc_processes.length) ∧
    run_service cenvDiscoveryErr =
      ([set_service_status .startPending], RunOutcome.error .discoveryFailure) :=
  steady_state_error_containment alwaysExitEnv twoProcState (fun _ => rfl)
    (fun _ => true) twoProcState.frpc_processes 0 cenvDiscoveryErr rfl rfl

/-- C5 counterexample: a poll failure is NOT contained at the loop.
One worker runs fine, its first `try_wait` fails, and the whole
service returns an error — the monitor loop is left, no Stopped status
is reported (the last report stays Running), contradicting the claim
that a poll failure of one worker lets the loop continue. -/
theorem poll_error_escapes_loop_cex :
    run_service cenvPollErr =
      ([set_service_status .startPending, set_service_status .running],
        RunOutcome.error .pollFailure) := by
  decide

/-- C4: when discovery yields zero specs, or every initial launch
fails, `run_service` reports StartPending and then Stopped — never
Running — and returns the no-workers-available error. -/
theorem no_workers_available_fail_fast (env : RunEnv)
    (hreg : env.registerOk = true) (files : List String)
    (hf : env.discoveredFiles = .ok files)
    (hempty : discover_frpc_instances files = [] ∨
      startAll env.startEnvs (discover_frpc_instances files) 0 = []) :
    run_service env =
      ([set_service_status .startPending, set_service_status .stopped],
        RunOutcome.error .noWorkersAvailable) ∧
    ∀ r ∈ (run_service env).1, r.current_state ≠ ServiceState.running := by
  have hstart : startAll env.startEnvs (discover_frpc_instances files) 0 = [] := by
    rcases hempty with h | h
    · rw [h]
      rfl
    · exact h
  have hmain : run_service env =
      ([set_service_status .startPending, set_service_status .stopped],
        RunOutcome.error .noWorkersAvailable) := by
    unfold run_service
    rw [hreg, hf]
    simp [hstart]
  refine ⟨hmain, ?_⟩
  rw [hmain]
  intro r hr
  simp at hr
  rcases hr with rfl | rfl <;> decide

/-- Witness for C4: an empty directory yields zero specs; the service
stops with the no-workers error and Running is never among the
reports. -/
theorem no_workers_available_fail_fast_witness :
    run_service cenvNoWorkers =
      ([set_service_status .startPending, set_service_status .stopped],
        RunOutcome.error .noWorkersAvailable) ∧
    (set_service_status .stopped).current_state ≠ ServiceState.running := by
  obtain ⟨h1, h2⟩ := no_workers_available_fail_fast cenvNoWorkers rfl [] rfl (Or.inl rfl)
  exact ⟨h1, h2 (set_service_status .stopped) (by decide)⟩

/-- C3 counterexample: on the fatal `NoWorkersAvailable` error the
service does report Stopped before returning the error, but the
service-specific exit code of that report is 0 — `set_service_status`
always passes `ServiceExitCode::Win32(0)` — not the claimed non-zero
code. -/
theorem fatal_error_zero_exit_code_cex :
    (run_service cenvNoWorkers).2 = RunOutcome.error .noWorkersAvailable ∧
    (run_service cenvNoWorkers).1 =
      [{ current_state := .startPending, acceptsStopShutdown := false, exit_code := 0 },
       { current_state := .stopped, acceptsStopShutdown := false, exit_code := 0 }] := by
  decide

/-- C3 (amended): every status report carries exit code 0 (the adapter
always reports `Win32(0)`, on fatal failure as well as on graceful
stop); on the `NoWorkersAvailable` error the last report before the
error is Stopped, and on a graceful stop the last report is Stopped as
well. -/
theorem always_zero_exit_code_stopped_reported (env : RunEnv) :
    (∀ r ∈ (run_service env).1, r.exit_code = 0) ∧
    ((run_service env).2 = RunOutcome.error .noWorkersAvailable →
      (run_service env).1.getLast? = some (set_service_status .stopped)) ∧
    ((run_service env).2 = RunOutcome.ok →
      (run_service env).1.getLast? = some (set_service_status .stopped)) := by
  unfold run_service
  split
  · refine ⟨by simp, by simp, by simp⟩
  · split
    · refine ⟨?_, by simp, by simp⟩
      intro r hr
      simp at hr
      rw [hr]
      rfl
    · split
      · refine ⟨?_, ?_, by simp⟩
        · intro r hr
          simp at hr
          rcases hr with rfl | rfl <;> rfl
        · intro _
          rfl
      · split
        · refine ⟨?_, by simp, by simp⟩
          intro r hr
          simp at hr
          rcases hr with rfl | rfl <;> rfl
        · refine ⟨?_, by simp, by simp⟩
          intro r hr
          simp at hr
          rcases hr with rfl | rfl <;> rfl
        · refine ⟨?_, by simp, ?_⟩
          · intro r hr
            simp at hr
            rcases hr with rfl | rfl | rfl <;> rfl
          · intro _
            rfl

/-- Witness for the C3 amended theorem on the no-workers run. -/
theorem always_zero_exit_code_witness :
    (set_service_status ServiceState.startPending).exit_code = 0 ∧
    (run_service cenvNoWorkers).1.getLast? = some (set_service_status .stopped) :=
  ⟨(always_zero_exit_code_stopped_reported cenvNoWorkers).1
      (set_service_status ServiceState.startPending) (by decide),
   (always_zero_exit_code_stopped_reported cenvNoWorkers).2.1 (by decide)⟩

/-! ## Discovery name extraction: shape lemmas -/

/-- A nonempty string has a nonempty character list. -/
theorem data_ne_nil (n : String) (h : n ≠ "") : n.data ≠ [] := by
  intro hd
  exact h (String.ext hd)

/-- Extraction computed on a well-formed named-instance file name. -/
theorem extractInstanceName_mk (name : String) (h : name.data ≠ []) :
    extractInstanceName ("frpc@" ++ name ++ ".exe") = some name := by
  unfold extractInstanceName
  have hdata : ("frpc@" ++ name ++ ".exe").data =
      "frpc@".data ++ (name.data ++ ".exe".data) := by
    rw [String.data_append, String.data_append, List.append_assoc]
  rw [hdata]
  have hpre : "frpc@".data.isPrefixOf ("frpc@".data ++ (name.data ++ ".exe".data)) = true := by
    rw [ List.isPrefixOf_iff_prefix]
    exact List.prefix_append _ _
  have hsuf : ".exe".data.isSuffixOf ("frpc@".data ++ (name.data ++ ".exe".data)) = true := by
    rw [ List.isSuffixOf_iff_suffix]
    rw [← List.append_assoc]
    exact List.suffix_append _ _
  rw [hpre, hsuf]
  have hdrop : ("frpc@".data ++ (name.data ++ ".exe".data)).drop 5 =
      name.data ++ ".exe".data := List.drop_left' rfl
  have hlen : ("frpc@".data ++ (name.data ++ ".exe".data)).length - 9 = name.data.length := by
    rw [List.length_append, List.length_append]
    have h5 : ("frpc@".data).length = 5 := rfl
    have h4 : (".exe".data).length = 4 := rfl
    rw [h5, h4]
    omega
  rw [hdrop, hlen, List.take_left]
  have hne : name.data.isEmpty = false := by
    cases hd : name.data with
    | nil => exact absurd hd h
    | cons c cs => rfl
  rw [hne]
  rfl

/-- Any successful extraction forces the file name to be exactly
`frpc@` ++ name ++ `.exe`. -/
theorem extractInstanceName_shape (f n : String) (h : extractInstanceName f = some n) :
    f.data = "frpc@".data ++ n.data ++ ".exe".data := by
  unfold extractInstanceName at h
  by_cases hc : ("frpc@".data.isPrefixOf f.data && ".exe".data.isSuffixOf f.data) = true
  case neg =>
    rw [if_neg hc] at h
    cases h
  case pos =>
  rw [if_pos hc] at h
  rw [Bool.and_eq_true] at hc
  obtain ⟨hp, hs⟩ := hc
  rw [ List.isPrefixOf_iff_prefix] at hp
  rw [ List.isSuffixOf_iff_suffix] at hs
  obtain ⟨t, ht⟩ := hp
  obtain ⟨s, hsu⟩ := hs
  have h5 : ("frpc@".data).length = 5 := rfl
  have h4 : (".exe".data).length = 4 := rfl
  have hflen : f.data.length = 5 + t.length := by
    rw [← ht, List.length_append, h5]
  have hslen : s.length + 4 = f.data.length := by
    rw [← hsu, List.length_append, h4]
  have ht4 : 4 ≤ t.length := by
    by_contra hcon
    push_neg at hcon
    have hdot : f.data[s.length]? = some '.' := by
      rw [← hsu, List.getElem?_append_right (le_refl s.length), Nat.sub_self]
      rfl
    have hdot2 : f.data[s.length]? = ("frpc@".data)[s.length]? := by
      rw [← ht, List.getElem?_append_left (by omega)]
    rw [hdot2] at hdot
    have hsl : s.length = 1 + t.length := by omega
    rw [hsl] at hdot
    set k := t.length with hk
    interval_cases k <;> exact absurd hdot (by decide)
  have hsplit : t.take (t.length - 4) ++ t.drop (t.length - 4) = t :=
    List.take_append_drop _ _
  have hmain : ("frpc@".data ++ t.take (t.length - 4)) ++ t.drop (t.length - 4) =
      s ++ ".exe".data := by
    rw [List.append_assoc, hsplit, ht]
    exact hsu.symm
  have hlen4 : (t.drop (t.length - 4)).length = (".exe".data).length := by
    rw [List.length_drop, h4]
    omega
  obtain ⟨hs_eq, hd_eq⟩ := List.append_inj' hmain hlen4
  have hfd : f.data = "frpc@".data ++ t := ht.symm
  have hdrop : f.data.drop 5 = t := by
    rw [hfd]
    exact List.drop_left' rfl
  have hlen9 : f.data.length - 9 = t.length - 4 := by omega
  rw [hdrop, hlen9] at h
  by_cases he : ((t.take (t.length - 4)).isEmpty) = true
  · rw [if_pos he] at h
    cases h
  · rw [if_neg he] at h
    injection h with h'
    have hteq : t = t.take (t.length - 4) ++ ".exe".data := by
      rw [← hd_eq]
      exact hsplit.symm
    rw [hfd, hteq, ← h']
    rfl

/-- Two distinct files never extract to the same instance name. -/
theorem extractInstanceName_inj (f₁ f₂ n : String)
    (h₁ : extractInstanceName f₁ = some n) (h₂ : extractInstanceName f₂ = some n) :
    f₁ = f₂ := by
  apply String.ext
  rw [extractInstanceName_shape f₁ n h₁, extractInstanceName_shape f₂ n h₂]

/-- Dissection of a successful `named_instance`. -/
theorem named_instance_some (files : List String) (f : String) (x : String × String × String)
    (h : named_instance files f = some x) :
    extractInstanceName f = some x.1 ∧ x.2.1 = f ∧ x.2.2 = x.1 ++ ".toml" ∧
      files.contains (x.1 ++ ".toml") = true := by
  unfold named_instance at h
  cases he : extractInstanceName f with
  | none =>
    rw [he] at h
    cases h
  | some name =>
    rw [he] at h
    have h2 : (if files.contains (name ++ ".toml") = true then
        some (name, f, name ++ ".toml") else none) = some x := h
    by_cases hc : files.contains (name ++ ".toml") = true
    · rw [if_pos hc] at h2
      injection h2 with h'
      subst h'
      exact ⟨rfl, rfl, rfl, hc⟩
    · rw [if_neg hc] at h2
      cases h2

/-- Rule `named_instance` fires on a file whose name extracts and whose
configuration file is present. -/
theorem named_instance_eq_some (files : List String) (f name : String)
    (he : extractInstanceName f = some name)
    (hc : files.contains (name ++ ".toml") = true) :
    named_instance files f = some (name, f, name ++ ".toml") := by
  unfold named_instance
  rw [he]
  show (if files.contains (name ++ ".toml") = true then
      some (name, f, name ++ ".toml") else none) = some (name, f, name ++ ".toml")
  rw [if_pos hc]

/-- C6: the discovery rules.  (1) The `default` spec
`(default, frpc.exe, frpc.toml)` is emitted exactly when both default
files exist.  (2) For every named file `frpc@<name>.exe` present in
the directory (`<name>` nonempty), the spec
`(<name>, frpc@<name>.exe, <name>.toml)` is emitted exactly when the
sibling `<name>.toml` exists — in particular a matching file without
its configuration contributes nothing, without failing discovery.
(3) The claim's scenario: `frpc.exe`+`frpc.toml`,
`frpc@alpha.exe`+`alpha.toml` and a stray `frpc@beta.exe` yield
exactly the two specs `default` and `alpha`. -/
theorem discovery_rules (files : List String) (name : String) :
    ((("default", "frpc.exe", "frpc.toml") ∈ discover_frpc_instances files) ↔
      (files.contains "frpc.exe" = true ∧ files.contains "frpc.toml" = true)) ∧
    (name ≠ "" → ("frpc@" ++ name ++ ".exe") ∈ files →
      (((name, "frpc@" ++ name ++ ".exe", name ++ ".toml") ∈ discover_frpc_instances files) ↔
        (name ++ ".toml") ∈ files)) ∧
    discover_frpc_instances scenarioFiles =
      [("default", "frpc.exe", "frpc.toml"), ("alpha", "frpc@alpha.exe", "alpha.toml")] := by
  refine ⟨⟨?_, ?_⟩, ?_, by decide⟩
  · intro h
    unfold discover_frpc_instances at h
    rcases List.mem_append.mp h with h | h
    · by_cases hc : (files.contains "frpc.exe" && files.contains "frpc.toml") = true
      · rw [Bool.and_eq_true] at hc
        exact hc
      · rw [if_neg hc] at h
        cases h
    · exfalso
      obtain ⟨f, hf, hnf⟩ := List.mem_filterMap.mp h
      obtain ⟨he, hx, _, _⟩ := named_instance_some files f _ hnf
      rw [← hx] at he
      exact absurd he (by decide)
  · intro hc
    unfold discover_frpc_instances
    apply List.mem_append_left
    rw [if_pos (by rw [Bool.and_eq_true]; exact hc)]
    exact List.mem_singleton.mpr rfl
  · intro hne hmem
    constructor
    · intro h
      unfold discover_frpc_instances at h
      rcases List.mem_append.mp h with h | h
      · exfalso
        by_cases hc : (files.contains "frpc.exe" && files.contains "frpc.toml") = true
        · rw [if_pos hc] at h
          have h' := List.mem_singleton.mp h
          injection h' with hn hrest
          injection hrest with hexe _
          rw [hn] at hexe
          exact absurd hexe (by decide)
        · rw [if_neg hc] at h
          cases h
      · obtain ⟨f, hf, hnf⟩ := List.mem_filterMap.mp h
        obtain ⟨he, hx, _, hct⟩ := named_instance_some files f _ hnf
        exact List.elem_iff.mp hct
    · intro htoml
      unfold discover_frpc_instances
      apply List.mem_append_right
      exact List.mem_filterMap.mpr
        ⟨"frpc@" ++ name ++ ".exe", hmem,
          named_instance_eq_some files _ name
            (extractInstanceName_mk name (data_ne_nil name hne))
            (List.elem_iff.mpr htoml)⟩

/-- Witness for C6 at the scenario directory: both the default spec
and the `alpha` spec are emitted. -/
theorem discovery_rules_witness :
    (("default", "frpc.exe", "frpc.toml") ∈ discover_frpc_instances scenarioFiles) ∧
    (("alpha", "frpc@" ++ "alpha" ++ ".exe", "alpha" ++ ".toml") ∈
      discover_frpc_instances scenarioFiles) :=
  ⟨((discovery_rules scenarioFiles "alpha").1).mpr (by decide),
   ((discovery_rules scenarioFiles "alpha").2.1 (by decide) (by decide)).mpr (by decide)⟩

/-- C7 counterexample: discovery does not deduplicate identities —
with `frpc.exe`, `frpc.toml`, `frpc@default.exe` and `default.toml`
all present, one pass emits two specs both named `default`, so the
emitted identities of one pass are not pairwise distinct. -/
theorem default_identity_collision_cex :
    (discover_frpc_instances collideFiles).map Prod.fst = ["default", "default"] ∧
    ¬ ((discover_frpc_instances collideFiles).map Prod.fst).Nodup := by
  decide

/-- C7 (amended): within one pass over a duplicate-free directory
listing, the identities emitted by the named-instance rule are
pairwise distinct (the file name `frpc@<name>.exe` is recoverable from
`<name>`); only the fixed `default` identity of the default rule can
collide with a named worker called `default`. -/
theorem named_identities_nodup (files : List String) (hnd : files.Nodup) :
    ((files.filterMap (named_instance files)).map Prod.fst).Nodup := by
  rw [List.map_filterMap]
  refine List.Nodup.filterMap ?_ hnd
  intro a a' b hb hb'
  cases hna : named_instance files a with
  | none =>
    rw [Option.mem_def, hna] at hb
    cases hb
  | some x =>
    rw [Option.mem_def, hna] at hb
    cases hna' : named_instance files a' with
    | none =>
      rw [Option.mem_def, hna'] at hb'
      cases hb'
    | some x' =>
      rw [Option.mem_def, hna'] at hb'
      injection hb with hb
      injection hb' with hb'
      obtain ⟨he, _, _, _⟩ := named_instance_some files a x hna
      obtain ⟨he', _, _, _⟩ := named_instance_some files a' x' hna'
      refine extractInstanceName_inj a a' b ?_ ?_
      · rw [he, hb]
      · rw [he', hb']

/-- Witness for the C7 amended theorem on the scenario directory. -/
theorem named_identities_nodup_witness :
    ((scenarioFiles.filterMap (named_instance scenarioFiles)).map Prod.fst).Nodup :=
  named_identities_nodup scenarioFiles (by decide)

/-- C10: a successful `FrpcProcess::start` spawns the child with
exactly the two arguments `-c` and the configuration path (in that
order, never the configuration path alone), and the returned handle
retains exactly the identity and the two paths it was started with,
so a later restart from the handle's retained fields launches an
identical command line. -/
theorem start_cmdline_and_retained (e e' : StartEnv) (id exe conf : String)
    (p : FrpcProcess) (cmd : LaunchedCmd)
    (h : FrpcProcess.start e id exe conf = .ok (p, cmd)) :
    cmd.program = exe ∧ cmd.args = ["-c", conf] ∧
    p.identifier = id ∧ p.exe_path = exe ∧ p.config_path = conf ∧
    ∀ p' cmd', FrpcProcess.start e' p.identifier p.exe_path p.config_path = .ok (p', cmd') →
      cmd' = cmd := by
  unfold FrpcProcess.start at h
  split_ifs at h
  simp only [Except.ok.injEq, Prod.mk.injEq] at h
  obtain ⟨hp, hc⟩ := h
  subst hp
  subst hc
  refine ⟨rfl, rfl, rfl, rfl, rfl, ?_⟩
  intro p' cmd' h'
  unfold FrpcProcess.start at h'
  split_ifs at h'
  simp only [Except.ok.injEq, Prod.mk.injEq] at h'
  exact h'.2.symm

/-- Witness for C10 at a concrete launch and relaunch. -/
theorem start_cmdline_and_retained_witness :
    ({ program := "frpc.exe", args := ["-c", "frpc.toml"] } : LaunchedCmd).args =
      ["-c", "frpc.toml"] ∧
    ({ identifier := "default", exe_path := "frpc.exe", config_path := "frpc.toml",
       alive := true } : FrpcProcess).identifier = "default" ∧
    ({ program := "frpc.exe", args := ["-c", "frpc.toml"] } : LaunchedCmd) =
      { program := "frpc.exe", args := ["-c", "frpc.toml"] } := by
  obtain ⟨h1, h2, h3, h4, h5, h6⟩ := start_cmdline_and_retained allOkStartEnv allOkStartEnv
    "default" "frpc.exe" "frpc.toml"
    { identifier := "default", exe_path := "frpc.exe", config_path := "frpc.toml", alive := true }
    { program := "frpc.exe", args := ["-c", "frpc.toml"] } rfl
  exact ⟨h2, h3,
    h6 { identifier := "default", exe_path := "frpc.exe", config_path := "frpc.toml",
         alive := true }
       { program := "frpc.exe", args := ["-c", "frpc.toml"] } rfl⟩

end FrpcSvc
